import Mathlib

/-!
Verification of the LocalAI streaming client (`src/client.py`).

The development is a shallow embedding of the module `client.py`:

* `LLMClient._format_phi_messages` is embedded as `Client.formatPhi`,
  over messages modelled as Python dictionaries (association lists with
  string keys and string values, first-match lookup; the dictionaries
  produced by the program have distinct keys).  Python's `KeyError` is
  modelled by the `Except String` monad.
* `LLMClient.chat_stream` is embedded as `Client.runStream`: the HTTP
  response is a record of status code, body text, and the line sequence
  produced by `iter_lines` (each line a `List Char`, modelling a decoded
  Python `str`).  `json.loads` is an external library call and is
  abstracted as a parameter `parse : List Char → Option Json`, where
  `none` models `json.JSONDecodeError`.  An uncaught Python exception
  inside the loop ends the generator, so the result of a run is the pair
  of the events yielded before termination and the optional error that
  terminated it.  The elapsed-time component of a yielded event is wall
  clock time and is not modelled; an event carries the decoded fragment.
* `LLMClient.list_models` is embedded as `Client.list_models`.
-/

namespace Client

/-- Decoded JSON values, as produced by Python's `json.loads`.  Object
fields model a Python dict built from JSON text; such a dict has string
keys, and the dicts appearing in this development have distinct keys. -/
inductive Json where
  | null
  | bool (b : Bool)
  | num (q : ℚ)
  | str (s : String)
  | arr (elems : List Json)
  | obj (fields : List (String × Json))

/-- Python truthiness of a decoded JSON value (`None`, `False`, `0`,
`""`, `[]`, `{}` are falsy). -/
def Json.truthy : Json → Bool
  | .null => false
  | .bool b => b
  | .num q => q != 0
  | .str s => s != ""
  | .arr elems => !elems.isEmpty
  | .obj fields => !fields.isEmpty

/-- `dict.get(key)` on a decoded JSON object: `none` models Python's
`None` result for an absent key. -/
def lookupField (fields : List (String × Json)) (key : String) : Option Json :=
  (fields.find? (fun kv => kv.1 == key)).map (fun kv => kv.2)

/-- Python `value[0]` on a decoded JSON value, as in `chunk["choices"][0]`:
indexing a nonempty list yields its head, indexing a nonempty string
yields its first character as a one-character string, and the remaining
cases raise (`KeyError` for a dict with a non-string key lookup,
`IndexError` for an empty sequence, `TypeError` otherwise). -/
def index0 : Json → Except String Json
  | .arr [] => .error "IndexError"
  | .arr (x :: _) => .ok x
  | .str s =>
    match s.data with
    | [] => .error "IndexError"
    | c :: _ => .ok (.str (String.mk [c]))
  | .obj _ => .error "KeyError"
  | .null => .error "TypeError"
  | .bool _ => .error "TypeError"
  | .num _ => .error "TypeError"

/-- The inner access `chunk["choices"][0].get("text")` followed by the
truthiness test: `first.get("text")` raises `AttributeError` unless
`first` is a dict; a missing or falsy `text` value means the chunk is
dropped (`ok none`), a truthy one is the fragment to yield. -/
def getText (first : Json) : Except String (Option Json) :=
  match first with
  | .obj ffields =>
    match lookupField ffields "text" with
    | none => .ok none
    | some t => if t.truthy then .ok (some t) else .ok none
  | _ => .error "AttributeError"

/-- Processing of one decoded chunk, embedding the body of the `try`
block of `chat_stream` after `json.loads` succeeded: the condition
`chunk.get("choices") and chunk["choices"][0].get("text")` with Python
short-circuit evaluation.  `chunk.get` raises `AttributeError` when the
chunk is not a dict; such exceptions are not `json.JSONDecodeError` and
escape the `except` clause. -/
def handleChunk : Json → Except String (Option Json)
  | .obj fields =>
    match lookupField fields "choices" with
    | none => .ok none
    | some choices =>
      if choices.truthy then
        match index0 choices with
        | .error e => .error e
        | .ok first => getText first
      else .ok none
  | _ => .error "AttributeError"

/-- The characters of the optional line marker `"data: "`. -/
def dataMarker : List Char := "data: ".data

/-- The characters of the end-of-stream sentinel `"[DONE]"`. -/
def doneSentinel : List Char := "[DONE]".data

/-- `if line.startswith("data: "): line = line[6:]` — strip the optional
six-character `"data: "` marker (`startswith(p)` holds exactly when the
first `len(p)` characters equal `p`). -/
def stripData (line : List Char) : List Char :=
  if line.take 6 = dataMarker then line.drop 6 else line

/-- Processing of one raw line of the streaming response body: empty
lines are skipped (`if line:`), the optional `"data: "` marker is
stripped, the `"[DONE]"` sentinel is skipped, a payload on which
`json.loads` fails (`parse _ = none`) is skipped by the
`except json.JSONDecodeError: continue` clause, and otherwise the chunk
is handled.  `ok none` means no event for this line, `ok (some c)` means
the fragment `c` is yielded, `error e` means an uncaught exception. -/
def processLine (parse : List Char → Option Json) (line : List Char) :
    Except String (Option Json) :=
  if line = [] then .ok none
  else if stripData line = doneSentinel then .ok none
  else
    match parse (stripData line) with
    | none => .ok none
    | some chunk => handleChunk chunk

/-- The `for line in response.iter_lines():` loop of `chat_stream` as a
whole: the fragments yielded in order, paired with the error that
terminated the generator early, if any. -/
def processLines (parse : List Char → Option Json) :
    List (List Char) → List Json × Option String
  | [] => ([], none)
  | l :: ls =>
    match processLine parse l with
    | .error e => ([], some e)
    | .ok none => processLines parse ls
    | .ok (some c) =>
      ((c :: (processLines parse ls).1), (processLines parse ls).2)

/-- The streaming HTTP response, as observed by `chat_stream`: status
code, body text (`response.text`), and the decoded lines produced by
`response.iter_lines()`. -/
structure StreamResponse where
  statusCode : Nat
  text : String
  lines : List (List Char)

/-- The observable behaviour of the `chat_stream` generator on a given
response: `raise Exception(f"Error: \x7bresponse.text\x7d")` on a
non-200 status before any line is read, otherwise the line loop. -/
def runStream (parse : List Char → Option Json) (resp : StreamResponse) :
    List Json × Option String :=
  if resp.statusCode ≠ 200 then ([], some ("Error: " ++ resp.text))
  else processLines parse resp.lines

/-- A chat message as passed to `_format_phi_messages`: a Python dict
with string keys and string values (association list, first-match
lookup; the program's dicts have distinct keys). -/
abbrev Msg : Type := List (String × String)

/-- `msg[key]` lookup returning `none` for an absent key (where the
Python subscript would raise `KeyError`). -/
def dictGet (m : Msg) (key : String) : Option String :=
  (m.find? (fun kv => kv.1 == key)).map (fun kv => kv.2)

/-- The predicate `msg["role"] == "system"` of the generator expression. -/
def isSystemMsg (m : Msg) : Bool := dictGet m "role" == some "system"

/-- The predicate `msg["role"] == "user"` of the list comprehension. -/
def isUserMsg (m : Msg) : Bool := dictGet m "role" == some "user"

/-- `next((msg for msg in messages if msg["role"] == "system"), None)`:
scan the messages in order, raising `KeyError` on a message without a
`"role"` key, and stop at the first message whose role is `"system"`. -/
def findSystem : List Msg → Except String (Option Msg)
  | [] => .ok none
  | m :: ms =>
    match dictGet m "role" with
    | none => .error "KeyError: role"
    | some r => if r = "system" then .ok (some m) else findSystem ms

/-- `[msg for msg in messages if msg["role"] == "user"]`: collect the
user messages in order, raising `KeyError` on a message without a
`"role"` key. -/
def collectUsers : List Msg → Except String (List Msg)
  | [] => .ok []
  | m :: ms =>
    match dictGet m "role" with
    | none => .error "KeyError: role"
    | some r =>
      match collectUsers ms with
      | .error e => .error e
      | .ok rest => .ok (if r = "user" then m :: rest else rest)

/-- The system block `f"<|system|>\x7bsystem_msg['content']\x7d<|end|>"`
built from the selected system message, empty when there is none;
`system_msg['content']` raises `KeyError` on an absent key. -/
def formatSystemPart : Option Msg → Except String String
  | none => .ok ""
  | some m =>
    match dictGet m "content" with
    | none => .error "KeyError: content"
    | some c => .ok ("<|system|>" ++ c ++ "<|end|>")

/-- The user block
`f"<|user|>\x7buser_msgs[-1]['content']\x7d<|end|><|assistant|>"` built
from the selected user message, empty when there is none. -/
def formatUserPart : Option Msg → Except String String
  | none => .ok ""
  | some m =>
    match dictGet m "content" with
    | none => .error "KeyError: content"
    | some c => .ok ("<|user|>" ++ c ++ "<|end|><|assistant|>")

/-- `LLMClient._format_phi_messages`: the system block of the first
system message (if any) followed by the user block of the last user
message (if any), in the evaluation order of the Python function. -/
def formatPhi (messages : List Msg) : Except String String :=
  match findSystem messages with
  | .error e => .error e
  | .ok sysOpt =>
    match formatSystemPart sysOpt with
    | .error e => .error e
    | .ok part1 =>
      match collectUsers messages with
      | .error e => .error e
      | .ok userMsgs =>
        match formatUserPart userMsgs.getLast? with
        | .error e => .error e
        | .ok part2 => .ok (part1 ++ part2)

/-- The formatter applied directly to a selected system message and a
selected user message (used to compare the formatter's output on a full
message list with its output on the two selected messages alone). -/
def formatFromSelected (sysOpt userOpt : Option Msg) : Except String String :=
  match formatSystemPart sysOpt with
  | .error e => .error e
  | .ok part1 =>
    match formatUserPart userOpt with
    | .error e => .error e
    | .ok part2 => .ok (part1 ++ part2)

/-- Modelled from the spec: the prompt string described in §4.1, built
from emitted blocks — `<|system|>\x7bcontent\x7d<|end|>` for the first
message with role `"system"` when one exists, then
`<|user|>\x7bcontent\x7d<|end|><|assistant|>` for the last message with
role `"user"` when one exists, in that fixed order. -/
def formatPhiSpec (messages : List Msg) : String :=
  (match messages.find? isSystemMsg with
   | none => ""
   | some m => "<|system|>" ++ ((dictGet m "content").getD "") ++ "<|end|>") ++
  (match (messages.filter isUserMsg).getLast? with
   | none => ""
   | some m => "<|user|>" ++ ((dictGet m "content").getD "") ++ "<|end|><|assistant|>")

/-- Every message of the list carries a `"role"` key. -/
def hasRolesB (messages : List Msg) : Bool :=
  messages.all (fun m => (dictGet m "role").isSome)

/-- The selected message, when present, carries a `"content"` key. -/
def contentOkB : Option Msg → Bool
  | none => true
  | some m => (dictGet m "content").isSome

/-- Precondition under which the formatter cannot raise: every message
has a `"role"` key, and the first system message and the last user
message (when they exist) have a `"content"` key. -/
def formatterPre (messages : List Msg) : Bool :=
  hasRolesB messages &&
  contentOkB (messages.find? isSystemMsg) &&
  contentOkB ((messages.filter isUserMsg).getLast?)

/-- The request body dict built by `chat_stream` (insertion order of the
Python dict literal), available once the formatter returned a prompt. -/
def chatRequestBody (messages : List Msg) (model : String) :
    Except String (List (String × Json)) :=
  match formatPhi messages with
  | .error e => .error e
  | .ok formattedPrompt => .ok
      [("prompt", .str formattedPrompt),
       ("model", .str model),
       ("stream", .bool true),
       ("top_p", .num 0.1),
       ("temperature", .num 0.3),
       ("stop", .arr [.str "<|endoftext|>", .str "<|end|>"]),
       ("max_tokens", .num 1024),
       ("presence_penalty", .num 0.0),
       ("frequency_penalty", .num 0.0)]

/-- The completions endpoint URL `f"\x7bself.api_base\x7d/completions"`. -/
def completionsUrl (apiBase : String) : String := apiBase ++ "/completions"

/-- The models endpoint URL `f"\x7bself.api_base\x7d/models"`. -/
def listModelsUrl (apiBase : String) : String := apiBase ++ "/models"

/-- The response to the synchronous GET issued by `list_models`. -/
structure HttpResponse where
  statusCode : Nat
  bodyText : List Char

/-- `LLMClient.list_models`: `requests.get(...)` followed by
`response.json()`.  The status code is never inspected; `response.json()`
decodes the body text (`parse` abstracts the JSON decoder) and raises a
decode error on a malformed body. -/
def list_models (parse : List Char → Option Json) (resp : HttpResponse) :
    Except String Json :=
  match parse resp.bodyText with
  | some j => .ok j
  | none => .error "JSONDecodeError"

/-! ### Concrete fixtures used to instantiate the general theorems -/

/-- The characters of the payload `\x7b"choices":[\x7b"text":"hi"\x7d]\x7d`. -/
def goodPayload : List Char := "\x7b\"choices\":[\x7b\"text\":\"hi\"\x7d]\x7d".data

/-- The decoded form of `goodPayload`. -/
def goodChunk : Json := .obj [("choices", .arr [.obj [("text", .str "hi")]])]

/-- A concrete stand-in for `json.loads`: decodes `goodPayload` and fails
on everything else. -/
def toyParse (payload : List Char) : Option Json :=
  if payload = goodPayload then some goodChunk else none

/-- A well-formed stream line carrying the fragment `"hi"`. -/
def goodLine : List Char := dataMarker ++ goodPayload

/-- A stream line whose payload is not valid JSON. -/
def badLine : List Char := "this is not json".data

/-- The stream line `"data: [DONE]"`. -/
def dataDoneLine : List Char := "data: [DONE]".data

/-- The message `{"role": "system", "content": "S"}`. -/
def sysS : Msg := [("role", "system"), ("content", "S")]

/-- The message `{"role": "user", "content": "U"}`. -/
def userU : Msg := [("role", "user"), ("content", "U")]

/-- The message `{"role": "system", "content": "A"}`. -/
def sysA : Msg := [("role", "system"), ("content", "A")]

/-- The message `{"role": "system", "content": "B"}`. -/
def sysB : Msg := [("role", "system"), ("content", "B")]

/-- The message `{"role": "user", "content": "U1"}`. -/
def userU1 : Msg := [("role", "user"), ("content", "U1")]

/-- The message `{"role": "user", "content": "U2"}`. -/
def userU2 : Msg := [("role", "user"), ("content", "U2")]

/-! ### Helper lemmas about the formatter -/

theorem findSystem_eq (messages : List Msg)
    (h : ∀ m ∈ messages, (dictGet m "role").isSome = true) :
    findSystem messages = .ok (messages.find? isSystemMsg) := by
  induction messages with
  | nil => rfl
  | cons m ms ih =>
    obtain ⟨r, hr⟩ := Option.isSome_iff_exists.mp (h m (by simp))
    by_cases hsys : r = "system"
    · subst hsys
      rw [List.find?_cons_of_pos _ (by simp [isSystemMsg, hr])]
      simp [findSystem, hr]
    · rw [List.find?_cons_of_neg _ (by simp [isSystemMsg, hr, hsys])]
      have hstep : findSystem (m :: ms) = findSystem ms := by
        simp [findSystem, hr, hsys]
      rw [hstep]
      exact ih (fun x hx => h x (by simp [hx]))

theorem collectUsers_eq (messages : List Msg)
    (h : ∀ m ∈ messages, (dictGet m "role").isSome = true) :
    collectUsers messages = .ok (messages.filter isUserMsg) := by
  induction messages with
  | nil => rfl
  | cons m ms ih =>
    obtain ⟨r, hr⟩ := Option.isSome_iff_exists.mp (h m (by simp))
    have ih' := ih (fun x hx => h x (by simp [hx]))
    by_cases huser : r = "user"
    · subst huser
      simp [collectUsers, hr, ih', List.filter_cons, isUserMsg]
    · simp [collectUsers, hr, ih', List.filter_cons, isUserMsg, huser]

theorem formatPhi_eq_selected (messages : List Msg)
    (h : hasRolesB messages = true) :
    formatPhi messages =
      formatFromSelected (messages.find? isSystemMsg)
        ((messages.filter isUserMsg).getLast?) := by
  have h' : ∀ m ∈ messages, (dictGet m "role").isSome = true := by
    simpa [hasRolesB, List.all_eq_true] using h
  unfold formatPhi
  rw [findSystem_eq messages h', collectUsers_eq messages h']
  rfl

theorem formatPhi_pre (messages : List Msg)
    (h : formatterPre messages = true) :
    formatPhi messages = .ok (formatPhiSpec messages) := by
  unfold formatterPre at h
  rw [Bool.and_eq_true, Bool.and_eq_true] at h
  obtain ⟨⟨h1, h2⟩, h3⟩ := h
  rw [formatPhi_eq_selected messages h1]
  unfold formatFromSelected formatPhiSpec
  cases hfs : messages.find? isSystemMsg with
  | none =>
    cases hgl : (messages.filter isUserMsg).getLast? with
    | none => simp [formatSystemPart, formatUserPart]
    | some u =>
      rw [hgl] at h3
      obtain ⟨c, hc⟩ := Option.isSome_iff_exists.mp (by simpa [contentOkB] using h3)
      simp [formatSystemPart, formatUserPart, hc]
  | some m =>
    rw [hfs] at h2
    obtain ⟨cs, hcs⟩ := Option.isSome_iff_exists.mp (by simpa [contentOkB] using h2)
    cases hgl : (messages.filter isUserMsg).getLast? with
    | none => simp [formatSystemPart, formatUserPart, hcs]
    | some u =>
      rw [hgl] at h3
      obtain ⟨c, hc⟩ := Option.isSome_iff_exists.mp (by simpa [contentOkB] using h3)
      simp [formatSystemPart, formatUserPart, hcs, hc]

theorem find?_isSystem_role (messages : List Msg) (m : Msg)
    (h : messages.find? isSystemMsg = some m) :
    dictGet m "role" = some "system" := by
  simpa [isSystemMsg] using List.find?_some h

theorem getLast?_filter_isUser (messages : List Msg) (u : Msg)
    (h : (messages.filter isUserMsg).getLast? = some u) :
    dictGet u "role" = some "user" := by
  have hmem0 : u ∈ (messages.filter isUserMsg).getLast? := by
    rw [Option.mem_def]; exact h
  obtain ⟨hne, hlast⟩ := List.mem_getLast?_eq_getLast hmem0
  have hmem : u ∈ messages.filter isUserMsg := hlast ▸ List.getLast_mem hne
  simpa [isUserMsg] using (List.mem_filter.mp hmem).2

/-! ### Helper lemmas about the stream parser -/

theorem stripData_marker_append (s : List Char) :
    stripData (dataMarker ++ s) = s := by
  have h : dataMarker.length = 6 := by decide
  unfold stripData
  rw [← h, List.take_left, List.drop_left, if_pos rfl]

theorem processLine_skip_of_parse_none (parse : List Char → Option Json)
    (l : List Char) (h : parse (stripData l) = none) :
    processLine parse l = .ok none := by
  unfold processLine
  by_cases h0 : l = []
  · rw [if_pos h0]
  · rw [if_neg h0]
    by_cases hd : stripData l = doneSentinel
    · rw [if_pos hd]
    · rw [if_neg hd, h]

theorem processLine_parsed (parse : List Char → Option Json)
    (l : List Char) (chunk : Json) (hne : l ≠ [])
    (hdone : stripData l ≠ doneSentinel)
    (hp : parse (stripData l) = some chunk) :
    processLine parse l = handleChunk chunk := by
  unfold processLine
  rw [if_neg hne, if_neg hdone, hp]

theorem processLines_cons_skip (parse : List Char → Option Json)
    (l : List Char) (ls : List (List Char))
    (h : processLine parse l = .ok none) :
    processLines parse (l :: ls) = processLines parse ls := by
  simp [processLines, h]

theorem processLines_cons_yield (parse : List Char → Option Json)
    (l : List Char) (ls : List (List Char)) (c : Json)
    (h : processLine parse l = .ok (some c)) :
    processLines parse (l :: ls) =
      ((c :: (processLines parse ls).1), (processLines parse ls).2) := by
  simp [processLines, h]

/-! ### The claims -/

/-- Claim C1: for every message list of the data model (each message has
a role, the selected messages have content), the formatter's output is
the system block of the first system message (omitted when there is
none) followed by the user block of the last user message with its
trailing assistant marker (omitted when there is none), always in that
fixed order — the string computed by `formatPhiSpec`. -/
theorem c1_formatter_output (messages : List Msg)
    (h : formatterPre messages = true) :
    formatPhi messages = .ok (formatPhiSpec messages) :=
  formatPhi_pre messages h

/-- Claim C1 at the concrete input of the claim: on
`[{system, "S"}, {user, "U"}]` the output is exactly
`<|system|>S<|end|><|user|>U<|end|><|assistant|>`. -/
theorem c1_witness :
    formatterPre [sysS, userU] = true ∧
    formatPhi [sysS, userU] =
      .ok "<|system|>S<|end|><|user|>U<|end|><|assistant|>" :=
  ⟨by decide, by
    rw [c1_formatter_output [sysS, userU] (by decide)]
    exact congrArg Except.ok (by decide)⟩

/-- Claim C2 is false on the code: the formatter consumes the FIRST
system message, not the last.  On `[{system,"A"}, {system,"B"}]` the
output is the A block, while on the claimed sublist `[{system,"B"}]`
(just the last system message) it is the B block. -/
theorem c2_counterexample :
    formatPhi [sysA, sysB] = .ok "<|system|>A<|end|>" ∧
    formatPhi [sysB] = .ok "<|system|>B<|end|>" ∧
    formatPhi [sysA, sysB] ≠ formatPhi [sysB] := by
  refine ⟨rfl, rfl, fun hcontra => ?_⟩
  rw [show formatPhi [sysA, sysB] = Except.ok "<|system|>A<|end|>" from rfl,
      show formatPhi [sysB] = Except.ok "<|system|>B<|end|>" from rfl] at hcontra
  exact absurd (Except.ok.inj hcontra) (by decide)

/-- Claim C2 (amended): only the FIRST system message and the last user
message are consumed — when every message has a role key, the
formatter's output on the full list equals its output on the sublist
holding just the first system message (if any) and the last user
message (if any). -/
theorem c2_amended_first_system_last_user (messages : List Msg)
    (h : hasRolesB messages = true) :
    formatPhi messages =
      formatPhi ((messages.find? isSystemMsg).toList ++
        ((messages.filter isUserMsg).getLast?).toList) := by
  rw [formatPhi_eq_selected messages h]
  cases hfs : messages.find? isSystemMsg with
  | none =>
    cases hgl : (messages.filter isUserMsg).getLast? with
    | none => rfl
    | some u =>
      have hurole := getLast?_filter_isUser messages u hgl
      rw [show (none : Option Msg).toList ++ (some u).toList = [u] from rfl]
      rw [formatPhi_eq_selected [u] (by simp [hasRolesB, hurole])]
      have h1 : List.find? isSystemMsg [u] = none := by
        simp [List.find?, isSystemMsg, hurole]
      have h2 : (List.filter isUserMsg [u]).getLast? = some u := by
        simp [List.filter, isUserMsg, hurole]
      rw [h1, h2]
  | some m =>
    have hmrole := find?_isSystem_role messages m hfs
    cases hgl : (messages.filter isUserMsg).getLast? with
    | none =>
      rw [show (some m).toList ++ (none : Option Msg).toList = [m] from rfl]
      rw [formatPhi_eq_selected [m] (by simp [hasRolesB, hmrole])]
      have h1 : List.find? isSystemMsg [m] = some m := by
        simp [List.find?, isSystemMsg, hmrole]
      have h2 : (List.filter isUserMsg [m]).getLast? = none := by
        simp [List.filter, isUserMsg, hmrole]
      rw [h1, h2]
    | some u =>
      have hurole := getLast?_filter_isUser messages u hgl
      rw [show (some m).toList ++ (some u).toList = [m, u] from rfl]
      rw [formatPhi_eq_selected [m, u] (by simp [hasRolesB, hmrole, hurole])]
      have h1 : List.find? isSystemMsg [m, u] = some m := by
        simp [List.find?, isSystemMsg, hmrole]
      have h2 : (List.filter isUserMsg [m, u]).getLast? = some u := by
        simp [List.filter, isUserMsg, hmrole, hurole]
      rw [h1, h2]

/-- Claim C2 (amended) at a concrete input: with two system and two user
messages, the output equals the output on [first system, last user]. -/
theorem c2_witness :
    formatPhi [sysA, sysB, userU1, userU2] =
      formatPhi (([sysA, sysB, userU1, userU2].find? isSystemMsg).toList ++
        (([sysA, sysB, userU1, userU2].filter isUserMsg).getLast?).toList) :=
  c2_amended_first_system_last_user [sysA, sysB, userU1, userU2] (by decide)

/-- Claim C9: the prompt formatter raises no error on the empty message
list and returns the empty string. -/
theorem c9_empty_messages : formatPhi [] = .ok "" := rfl

/-- Claim C10: the formatter is total under the precondition that every
message has a `"role"` key and the first system and last user messages
(when present) have a `"content"` key; a list holding a message without
a `"role"` key makes it raise `KeyError` instead of returning a
string. -/
theorem c10_formatter_totality :
    (∀ messages : List Msg, formatterPre messages = true →
      ∃ s, formatPhi messages = .ok s) ∧
    formatPhi [([] : Msg)] = .error "KeyError: role" :=
  ⟨fun messages h => ⟨formatPhiSpec messages, formatPhi_pre messages h⟩, rfl⟩

/-- Claim C10 at a concrete input satisfying the precondition. -/
theorem c10_witness :
    formatterPre [userU] = true ∧ ∃ s, formatPhi [userU] = .ok s :=
  ⟨by decide, c10_formatter_totality.1 [userU] (by decide)⟩

/-- Claim C3: on a non-200 response the stream fails before yielding any
event (the event list is empty, an error is present), and the failure
message contains the raw response body text. -/
theorem c3_non200_fails_before_yield (parse : List Char → Option Json)
    (resp : StreamResponse) (h : resp.statusCode ≠ 200) :
    (runStream parse resp).1 = [] ∧
    ∃ a b, (runStream parse resp).2 = some (a ++ resp.text ++ b) := by
  unfold runStream
  rw [if_pos h]
  exact ⟨rfl, "Error: ", "", by rw [String.append_empty]⟩

/-- Claim C3 at a concrete response with status 500 and body "boom". -/
theorem c3_witness :
    ((500 : Nat) ≠ 200) ∧
    ((runStream toyParse ⟨500, "boom", [goodLine]⟩).1 = [] ∧
      ∃ a b, (runStream toyParse ⟨500, "boom", [goodLine]⟩).2 =
        some (a ++ "boom" ++ b)) :=
  ⟨by decide,
    c3_non200_fails_before_yield toyParse ⟨500, "boom", [goodLine]⟩ (by decide)⟩

/-- Claim C4: a line whose payload fails to decode as JSON is silently
skipped — processing the stream starting with that line gives exactly
the events and termination of the rest of the stream, so no exception
comes from the bad line and subsequent valid lines still yield. -/
theorem c4_bad_json_line_skipped (parse : List Char → Option Json)
    (l : List Char) (ls : List (List Char))
    (h : parse (stripData l) = none) :
    processLines parse (l :: ls) = processLines parse ls :=
  processLines_cons_skip parse l ls (processLine_skip_of_parse_none parse l h)

/-- Claim C4 at a concrete stream: an undecodable line followed by a
valid line; the valid line still yields its event. -/
theorem c4_witness :
    toyParse (stripData badLine) = none ∧
    processLines toyParse [badLine, goodLine] = processLines toyParse [goodLine] ∧
    processLines toyParse [goodLine] = ([Json.str "hi"], none) :=
  ⟨rfl, c4_bad_json_line_skipped toyParse badLine [goodLine] rfl, rfl⟩

/-- Claim C5: for a line whose payload decodes to a JSON object, a
non-empty `choices[0].text` string yields exactly one event carrying
that text, while an absent `choices` field, an absent `text` field, or
an empty `text` drops the chunk silently and the stream continues. -/
theorem c5_chunk_text_extraction (parse : List Char → Option Json)
    (l : List Char) (ls : List (List Char))
    (hne : l ≠ []) (hdone : stripData l ≠ doneSentinel) :
    (∀ fields f2 rest t, parse (stripData l) = some (.obj fields) →
      lookupField fields "choices" = some (.arr (.obj f2 :: rest)) →
      lookupField f2 "text" = some (.str t) → t ≠ "" →
      processLines parse (l :: ls) =
        ((Json.str t) :: (processLines parse ls).1, (processLines parse ls).2)) ∧
    (∀ fields, parse (stripData l) = some (.obj fields) →
      lookupField fields "choices" = none →
      processLines parse (l :: ls) = processLines parse ls) ∧
    (∀ fields f2 rest, parse (stripData l) = some (.obj fields) →
      lookupField fields "choices" = some (.arr (.obj f2 :: rest)) →
      (lookupField f2 "text" = none ∨ lookupField f2 "text" = some (.str "")) →
      processLines parse (l :: ls) = processLines parse ls) := by
  refine ⟨fun fields f2 rest t hp hchoices htext htne => ?_,
    fun fields hp hchoices => ?_, fun fields f2 rest hp hchoices htext => ?_⟩
  · have hline : processLine parse l = .ok (some (Json.str t)) := by
      rw [processLine_parsed parse l _ hne hdone hp]
      simp [handleChunk, hchoices, Json.truthy, index0, getText, htext, htne]
    exact processLines_cons_yield parse l ls _ hline
  · have hline : processLine parse l = .ok none := by
      rw [processLine_parsed parse l _ hne hdone hp]
      simp [handleChunk, hchoices]
    exact processLines_cons_skip parse l ls hline
  · have hline : processLine parse l = .ok none := by
      rw [processLine_parsed parse l _ hne hdone hp]
      rcases htext with htext | htext <;>
        simp [handleChunk, hchoices, Json.truthy, index0, getText, htext]
    exact processLines_cons_skip parse l ls hline

/-- Claim C5 at the concrete line `data: {"choices":[{"text":"hi"}]}`:
exactly one event carrying "hi" is yielded. -/
theorem c5_witness :
    processLines toyParse [goodLine] =
      ((Json.str "hi") :: (processLines toyParse []).1,
        (processLines toyParse []).2) :=
  (c5_chunk_text_extraction toyParse goodLine [] (by decide) (by decide)).1
    [("choices", Json.arr [Json.obj [("text", Json.str "hi")]])]
    [("text", Json.str "hi")] [] "hi" rfl rfl rfl (by decide)

/-- Claim C6: line processing strips an optional `"data: "` marker, and
a line reduced to the `"[DONE]"` sentinel is skipped with no event; in
particular the line `"data: [DONE]"` yields no event. -/
theorem c6_done_sentinel :
    (∀ s : List Char, stripData (dataMarker ++ s) = s) ∧
    (∀ (parse : List Char → Option Json) (l : List Char) (ls : List (List Char)),
      stripData l = doneSentinel →
      processLines parse (l :: ls) = processLines parse ls) ∧
    (∀ (parse : List Char → Option Json) (ls : List (List Char)),
      processLines parse (dataDoneLine :: ls) = processLines parse ls) := by
  have hskip : ∀ (parse : List Char → Option Json) (l : List Char)
      (ls : List (List Char)), stripData l = doneSentinel →
      processLines parse (l :: ls) = processLines parse ls := by
    intro parse l ls hd
    have hne : l ≠ [] := by
      intro h0
      rw [h0] at hd
      exact absurd hd (by decide)
    have hline : processLine parse l = .ok none := by
      unfold processLine
      rw [if_neg hne, if_pos hd]
    exact processLines_cons_skip parse l ls hline
  exact ⟨stripData_marker_append, hskip,
    fun parse ls => hskip parse dataDoneLine ls (by decide)⟩

/-- Claim C6 at the concrete line `"data: [DONE]"` followed by a valid
line: the sentinel line yields nothing and the stream continues. -/
theorem c6_witness :
    stripData dataDoneLine = doneSentinel ∧
    processLines toyParse [dataDoneLine, goodLine] =
      processLines toyParse [goodLine] :=
  ⟨by decide, c6_done_sentinel.2.1 toyParse dataDoneLine [goodLine] (by decide)⟩

/-- Claim C7: whenever the formatter returns a prompt, the request body
sent to the completions endpoint is exactly the dict with fields prompt,
model, stream=true, top_p=0.1, temperature=0.3,
stop=["<|endoftext|>","<|end|>"], max_tokens=1024, presence_penalty=0.0
and frequency_penalty=0.0. -/
theorem c7_request_body (messages : List Msg) (model p : String)
    (h : formatPhi messages = .ok p) :
    chatRequestBody messages model = .ok
      [("prompt", .str p),
       ("model", .str model),
       ("stream", .bool true),
       ("top_p", .num 0.1),
       ("temperature", .num 0.3),
       ("stop", .arr [.str "<|endoftext|>", .str "<|end|>"]),
       ("max_tokens", .num 1024),
       ("presence_penalty", .num 0.0),
       ("frequency_penalty", .num 0.0)] ∧
    (∀ apiBase, completionsUrl apiBase = apiBase ++ "/completions") := by
  refine ⟨?_, fun _ => rfl⟩
  unfold chatRequestBody
  rw [h]

/-- Claim C7 at a concrete call with one user message and the default
model string. -/
theorem c7_witness :
    formatPhi [userU] = .ok "<|user|>U<|end|><|assistant|>" ∧
    chatRequestBody [userU] "phi-3.5-mini-instruct" = .ok
      [("prompt", .str "<|user|>U<|end|><|assistant|>"),
       ("model", .str "phi-3.5-mini-instruct"),
       ("stream", .bool true),
       ("top_p", .num 0.1),
       ("temperature", .num 0.3),
       ("stop", .arr [.str "<|endoftext|>", .str "<|end|>"]),
       ("max_tokens", .num 1024),
       ("presence_penalty", .num 0.0),
       ("frequency_penalty", .num 0.0)] := by
  have h : formatPhi [userU] = .ok "<|user|>U<|end|><|assistant|>" := by
    rw [show formatPhi [userU] = .ok ("" ++ "<|user|>U<|end|><|assistant|>") from rfl]
    exact congrArg Except.ok (by decide)
  exact ⟨h, (c7_request_body [userU] "phi-3.5-mini-instruct"
    "<|user|>U<|end|><|assistant|>" h).1⟩

/-- Claim C8 is false on the code: `list_models` never inspects the
status code, so a non-200 response whose body is valid JSON is returned
verbatim instead of propagating a failure. -/
theorem c8_counterexample :
    ((404 : Nat) ≠ 200) ∧
    list_models toyParse ⟨404, goodPayload⟩ = .ok goodChunk :=
  ⟨by decide, rfl⟩

/-- Claim C8 (amended): `list_models` issues the GET to
`{apiBase}/models` and returns the decoded body verbatim whenever it
parses as JSON, regardless of the HTTP status; only a malformed body
propagates as a generic failure. -/
theorem c8_amended_list_models (parse : List Char → Option Json)
    (resp : HttpResponse) :
    (∀ apiBase, listModelsUrl apiBase = apiBase ++ "/models") ∧
    (∀ j, parse resp.bodyText = some j → list_models parse resp = .ok j) ∧
    (parse resp.bodyText = none → ∃ e, list_models parse resp = .error e) := by
  refine ⟨fun _ => rfl, fun j hj => ?_, fun hn => ⟨"JSONDecodeError", ?_⟩⟩
  · unfold list_models
    rw [hj]
  · unfold list_models
    rw [hn]

/-- Claim C8 (amended) at a concrete 200 response with a decodable
body. -/
theorem c8_witness :
    toyParse goodPayload = some goodChunk ∧
    list_models toyParse ⟨200, goodPayload⟩ = .ok goodChunk :=
  ⟨rfl, (c8_amended_list_models toyParse ⟨200, goodPayload⟩).2.1 goodChunk rfl⟩

end Client
